import Mathlib

/-!
Shallow embedding of the Flow-Tracking-Production task-transition engine:
`Publish.publish` (src/publish.py), `Review.update_version` (src/review.py)
and `sg_file_operations.copy` (src/sg_file_operations.py).

External collaborators (the record store, the path-template service, the
filesystem, the role-assignment validator) are modelled as explicit data and
oracle functions carried in a `World` value; Python exceptions that escape the
per-item code and abort the whole run are modelled with `Except String`.
-/

namespace FlowTrack

/-! ### Python dict primitives (insertion-ordered association lists) -/

/-- `d[k]` / `d.get(k)`: first binding of `k` in an insertion-ordered dict. -/
def dlookup {α : Type} (k : String) : List (String × α) → Option α
  | [] => none
  | (k2, v) :: rest => if k = k2 then some v else dlookup k rest

/-- One step of `dict.update`: replace the binding of `k` in place, else append. -/
def dinsert {α : Type} (k : String) (v : α) : List (String × α) → List (String × α)
  | [] => [(k, v)]
  | (k2, v2) :: rest => if k = k2 then (k, v) :: rest else (k2, v2) :: dinsert k v rest

/-- `m.update(kvs)`: fold `dinsert` over the new bindings (later keys win). -/
def dupdate {α : Type} (m : List (String × α)) (kvs : List (String × α)) :
    List (String × α) :=
  kvs.foldl (fun acc p => dinsert p.1 p.2 acc) m

/-- Python truthiness of an optional parsed dict (`None` and `{}` are falsy). -/
def truthyOpt {α : Type} : Option (List α) → Bool
  | none => false
  | some l => !l.isEmpty

/-- Python truthiness of an optional string field (`None` and `""` are falsy). -/
def truthyStr : Option String → Bool
  | none => false
  | some s => !s.isEmpty

/-! ### Small string helpers used by publish.py -/

/-- `\w` of the extension regex `r"\*\.(\w+)"` (publish.py line 317). -/
def isWordChar (c : Char) : Bool := c.isAlphanum || c == '_'

/-- Greedy `\w+` tail. -/
def takeWordChars : List Char → List Char
  | [] => []
  | c :: cs => if isWordChar c then c :: takeWordChars cs else []

/-- Try to match `\*\.(\w+)` at the head of the character list. -/
def matchExtAt : List Char → Option (List Char)
  | '*' :: '.' :: c :: cs => if isWordChar c then some (c :: takeWordChars cs) else none
  | _ => none

/-- `re.search`: try the pattern at each successive position. -/
def findExtChars : List Char → Option (List Char)
  | [] => none
  | c :: cs =>
    match matchExtAt (c :: cs) with
    | some r => some r
    | none => findExtChars cs

/-- `extension.group(1) if extension else ""` (publish.py lines 319-320). -/
def extractExtension (s : String) : String :=
  match findExtChars s.toList with
  | some cs => String.mk cs
  | none => ""

/-- `str(n).zfill(3)` (publish.py line 669). -/
def zfill3 (n : Nat) : String :=
  let s := toString n
  if s.length < 3 then String.mk (List.replicate (3 - s.length) '0') ++ s else s

/-- `str(name).split("_", maxsplit=1)[0]` (publish.py lines 212/216). -/
def splitFirstUnderscore (s : String) : String :=
  String.mk (s.toList.takeWhile fun c => c != '_')

/-- Props/Texture destination rewrite (publish.py lines 361-366). -/
def stripPropsTexture (s : String) : String :=
  ((((s.replace "\\workarea" "").replace "/workarea" "").replace
      "\\texture" "").replace "/texture" "")

/-! ### Data model -/

/-- A ShotGrid entity reference `{"type": ..., "id": ...}`. -/
structure Ref where
  type : String
  id : Nat
deriving Repr, DecidableEq

/-- A task's `entity` link dict `{"type", "id", "name"}`. -/
structure Link where
  type : String
  id : Nat
  name : String
deriving Repr, DecidableEq

/-- The fields of a selected Task record that the engine reads. -/
structure Task where
  id : Nat
  project : Nat
  link : Link
  pipelineStep : String
  status : String
  taskName : String
  splitType : Option String
  clientVersion : Option Nat
  teamLead : Option Nat
  supervisor : Option Nat
deriving Repr, DecidableEq

/-- A Shot/Asset record (`entity_data`). -/
structure EntityRec where
  type : String
  id : Nat
  code : String
  assetType : Option String
deriving Repr, DecidableEq

/-- A CustomEntity04 techfix record. -/
structure TechfixRec where
  id : Nat
  project : Nat
  task : Option Ref
  fromTask : Option Ref
  status : String
deriving Repr, DecidableEq

/-- A Version record (also the review module's selected versions). -/
structure VersionRec where
  id : Nat
  link : Link
  taskId : Nat
  status : String
  code : String
  versionName : String
deriving Repr, DecidableEq

/-- One slot of the parsed `fileConfig` dict. `workarea`/tag values model the
Python truthiness test (`none` is falsy). -/
structure SlotCfg where
  workarea : Option String
  filter : String
  mandatory : Bool
  tags : String → Option String

/-- A CustomEntity24 transition-config record; `statusConfig`/`fileConfig` hold
the `ast.literal_eval` result of the string fields (`none` when the field is
null). `fields` models reading the record's template columns by field name. -/
structure TaskConfigRec where
  entityType : String
  pathSheetName : String
  taskName : String
  statusConfig : Option (List (String × List (String × String)))
  fileConfig : Option (List (String × List (String × SlotCfg)))
  qcProcess : Option String
  fields : String → String

/-- The external world: pre-fetched record-store data plus oracles for the
filesystem, the path-template service, the file-copy service and the
role-assignment validator. -/
structure World where
  projectId : Nat
  entities : List EntityRec
  taskConfigs : List TaskConfigRec
  techfixRecs : List TechfixRec
  tasksById : List Task
  versions : List VersionRec
  publishTypes : List String
  userRole : String
  userId : Nat
  pathExists : String → Bool
  isFile : String → Bool
  baseName : String → String
  buildPath : String → String → Nat → String
  copyResult : String → String → Bool × String
  roleOk : Nat → Bool × String

/-- `config_data[action]` for the publish module. -/
structure ActionConfig where
  action : String
  clientQcSteps : List String
  publishTags : List String

/-- `config_data[action]` for the review module. -/
structure ReviewConfig where
  action : String
  validLeadStatus : List String
  validLeadVerStatus : List String
  validSupStatus : List String
  validSupVerStatus : List String

/-- One report row (`Shot/Asset` or `Version`, `Task`, `Success`, `Reason`). -/
structure Report where
  col1 : String
  col2 : String
  success : String
  reason : String
deriving Repr, DecidableEq

/-- Payload of `get_published_file_data` (publish.py lines 691-704). -/
structure PublishData where
  project : Nat
  name : String
  code : String
  statusList : String
  versionNumber : Nat
  publishedFileType : Option String
  entity : Ref
  task : Ref
  version : Option Nat
  absolutePath : String
deriving Repr, DecidableEq

/-- A queued batch operation. Status payloads carry the status value that the
single-field data dict holds (`none` models a Python `None` value). -/
inductive BatchOp where
  | update (entityType : String) (entityId : Nat) (status : Option String)
  | create (entityType : String) (data : PublishData)
deriving Repr, DecidableEq

/-- Abbreviation for a queued single-field status update. -/
def statusOp (entityType : String) (entityId : Nat) (s : String) : BatchOp :=
  .update entityType entityId (some s)

/-! ### Publish: per-item lookups (publish.py lines 180-271) -/

/-- Entity query + `entity_data[-1]` (publish.py lines 183-200). -/
def entityLookup (w : World) (t : Task) : Option EntityRec :=
  (w.entities.filter fun e => decide (e.code = t.link.name)).getLast?

/-- Techfix/split task-name normalization (publish.py lines 208-216). -/
def configTaskNameOf (t : Task) : String :=
  if t.taskName.endsWith "_TechFix" || t.splitType == some "SPLIT" then
    splitFirstUnderscore t.taskName
  else t.taskName

/-- Transition-config query + `task_config[-1]` (publish.py lines 219-237,
review.py lines 265-281: the same triple filter). -/
def taskConfigLookup (w : World) (t : Task) : Option TaskConfigRec :=
  (w.taskConfigs.filter fun c =>
      decide (c.entityType = t.link.type ∧ c.pathSheetName = t.pipelineStep ∧
        c.taskName = configTaskNameOf t)).getLast?

/-- `status_config[self.sa_obj.action]` (publish.py line 259): subscripting
`None` raises `TypeError`, a missing action key raises `KeyError`. -/
def subscriptAction (sc : Option (List (String × List (String × String))))
    (action : String) : Except String (List (String × String)) :=
  match sc with
  | none => .error "TypeError: NoneType object is not subscriptable"
  | some m =>
    match dlookup action m with
    | none => .error ("KeyError: " ++ action)
    | some am => .ok am

/-- Techfix / no-QC override merge (publish.py lines 261-262):
`status_config.update({"tlapr": "pub", "movapr": "pub"})`. -/
def effectiveStatusMap (actionMap : List (String × String)) (isTechfix : Bool)
    (qcProcess : Option String) : List (String × String) :=
  if isTechfix || !truthyStr qcProcess then
    dupdate actionMap [("tlapr", "pub"), ("movapr", "pub")]
  else actionMap

/-- Fallback slot set when the direct `fileConfig[nextStatus]` entry is falsy
(publish.py lines 304-308). For a Lighting step the code iterates
`task_file_configs.get("movcpt")`, which raises when that key is absent. -/
def fileCfgFallback (fc : List (String × List (String × SlotCfg)))
    (pipelineStep : String) : Except String (List (String × SlotCfg)) :=
  if pipelineStep = "Lighting" then
    match dlookup "movcpt" fc with
    | none => .error "TypeError: NoneType object is not iterable"
    | some v => .ok v
  else .ok ((dlookup "cmpt" fc).getD [])

/-- `file_configs` resolution (publish.py lines 297-308). -/
def fileConfigsFor (tc : TaskConfigRec) (pipelineStep nextStatus : String) :
    Except String (List (String × SlotCfg)) :=
  match tc.fileConfig with
  | none => .ok []
  | some fc =>
    if fc.isEmpty then .ok []
    else
      match dlookup nextStatus fc with
      | some v => if v.isEmpty then fileCfgFallback fc pipelineStep else .ok v
      | none => fileCfgFallback fc pipelineStep

/-! ### Publish: the copy loop (publish.py lines 310-401) -/

/-- `get_published_file_data` (publish.py lines 635-708). Its operations are
total in the model, so the Python `except` branch that returns `{}` cannot
fire and the data dict is always truthy. -/
def getPublishedFileData (w : World) (t : Task) (fileType path : String) :
    PublishData :=
  let clientPass := t.clientVersion.getD 0
  let publishCode := t.link.name ++ "_" ++ t.pipelineStep ++ "_v" ++ zfill3 clientPass
  let pft := (w.publishTypes.filter fun c => decide (c = fileType)).getLast?
  let latest := (w.versions.filter fun v =>
      decide (v.link.type = t.link.type ∧ v.link.id = t.link.id ∧
        v.taskId = t.id) && ["qcap"].contains v.status).getLast?
  let code := if w.isFile path then w.baseName path else publishCode
  { project := w.projectId
    name := publishCode
    code := code
    statusList := "cmpt"
    versionNumber := clientPass
    publishedFileType := pft
    entity := ⟨t.link.type, t.link.id⟩
    task := ⟨"Task", t.id⟩
    version := latest.map fun v => v.id
    absolutePath := path }

/-- Mutable state of the copy loop: `overall_status`, `overall_msg` and the
run-global `publish_batch_data` list. -/
structure CopySt where
  ok : Bool
  msg : String
  pubAcc : List BatchOp
deriving Repr

/-- Body of the inner `for each_tag in self.config_data["publishTags"]` loop
(publish.py lines 339-401). -/
def processTag (w : World) (tc : TaskConfigRec) (t : Task) (ed : EntityRec)
    (slotName : String) (source ext : String) (slot : SlotCfg) (st : CopySt)
    (tag : String) : CopySt :=
  match slot.tags tag with
  | none => st
  | some destKey =>
    let d0 := w.buildPath (tc.fields destKey) ext t.id
    let destination :=
      if ed.type == "Asset" && ed.assetType == some "props" && tag == "server"
          && t.pipelineStep == "Texture" then
        stripPropsTexture d0
      else d0
    let r := w.copyResult source destination
    if r.1 then
      let pd := getPublishedFileData w t slotName destination
      { ok := st.ok && r.1, msg := st.msg,
        pubAcc := st.pubAcc ++ [BatchOp.create "PublishedFile" pd] }
    else
      { ok := st.ok && r.1, msg := r.2 ++ st.msg, pubAcc := st.pubAcc }

/-- Body of the outer `for each in file_configs` loop
(publish.py lines 312-401). -/
def processSlot (w : World) (cfg : ActionConfig) (tc : TaskConfigRec) (t : Task)
    (ed : EntityRec) (st : CopySt) (p : String × SlotCfg) : CopySt :=
  match p.2.workarea with
  | none => st
  | some wa =>
    let ext := extractExtension p.2.filter
    let source := w.buildPath (tc.fields wa) ext t.id
    if !w.pathExists source && !p.2.mandatory then st
    else cfg.publishTags.foldl (processTag w tc t ed p.1 source ext p.2) st

/-- The whole copy loop over the item's slots. -/
def copyLoop (w : World) (cfg : ActionConfig) (tc : TaskConfigRec) (t : Task)
    (ed : EntityRec) (fileConfigs : List (String × SlotCfg))
    (pubAcc : List BatchOp) : CopySt :=
  fileConfigs.foldl (processSlot w cfg tc t ed) ⟨true, "", pubAcc⟩

/-! ### Publish: the success tail (publish.py lines 403-617) -/

/-- Techfix-record query + `[-1]` (publish.py lines 411-438). -/
def techfixEntryLookup (w : World) (t : Task) : Option TechfixRec :=
  (w.techfixRecs.filter fun r =>
      decide (r.task = some ⟨"Task", t.id⟩ ∧ r.project = w.projectId)).getLast?

/-- Originating-task query (publish.py lines 460-466); the code indexes
`[-1]` without an emptiness check. -/
def fromTaskLookup (w : World) (ftId : Nat) : Option Task :=
  (w.tasksById.filter fun x => decide (x.id = ftId)).getLast?

/-- The pending-sibling techfix query (publish.py lines 475-503): same
originating task, not the current task, same project, status not terminal. -/
def pendingTechfixes (w : World) (ft : Ref) (taskId : Nat) : List TechfixRec :=
  w.techfixRecs.filter fun r =>
    decide (r.fromTask = some ft ∧ r.task ≠ some ⟨"Task", taskId⟩ ∧
      r.project = w.projectId) && !(["pub", "omt", "reject"].contains r.status)

/-- The techfix cascade (publish.py lines 410-519). Returns the batch ops it
queued plus an optional per-item failure reason; note that the CustomEntity04
update is queued before the remaining checks, so it survives a later failure
of the same item, exactly as in the source. -/
def techfixStage (w : World) (t : Task) (nextStatus : String) :
    Except String (List BatchOp × Option String) :=
  match techfixEntryLookup w t with
  | none => .ok ([], some "Selected Task TechFixData Record is not available in SG")
  | some entry =>
    let ops := [statusOp "CustomEntity04" entry.id nextStatus]
    match entry.fromTask with
    | none =>
      .ok (ops, some ("Selected Task TechFixData Record is not having" ++
        "Source Task Data to update as TechFix Done," ++ "Please check with SG Team"))
    | some ft =>
      match fromTaskLookup w ft.id with
      | none => .error "IndexError: list index out of range"
      | some ftTask =>
        if ["tfhl"].contains ftTask.status then
          if (pendingTechfixes w ft t.id).isEmpty then
            .ok (ops ++ [statusOp "Task" ft.id "thdn"], none)
          else .ok (ops, none)
        else .ok (ops, none)

/-- The paired client-QC sibling query (publish.py lines 529-548/561-580). -/
def qcSiblingLookup (w : World) (stepName : String) (link : Link) : Option Task :=
  (w.tasksById.filter fun x =>
      decide (x.project = w.projectId ∧ x.pipelineStep = stepName ∧
        x.link = link)).getLast?

/-- The asset status cascade (publish.py lines 521-601). -/
def assetCascadeStage (w : World) (t : Task) (ed : EntityRec)
    (nextStatus : String) : Sum String (List BatchOp) :=
  if ed.type == "Asset" then
    if t.pipelineStep == "Rig" then .inr [statusOp ed.type ed.id "rfa"]
    else if t.pipelineStep == "LooknFeel" || t.pipelineStep == "Texture" then
      .inr [statusOp ed.type ed.id "rflgt"]
    else if t.pipelineStep == "RigClientQC" then
      match qcSiblingLookup w "LgtClientQC" t.link with
      | none => .inl "LgtClientQC Task is not available in SG"
      | some sib =>
        if nextStatus == "pub" && sib.status == "pub" then
          .inr [statusOp ed.type ed.id "rfp"]
        else .inr []
    else if t.pipelineStep == "LgtClientQC" then
      match qcSiblingLookup w "RigClientQC" t.link with
      | none => .inl "RigClientQC Task is not available in SG"
      | some sib =>
        if nextStatus == "pub" && sib.status == "pub" then
          .inr [statusOp ed.type ed.id "rfp"]
        else .inr []
    else .inr []
  else .inr []

/-- Lines 403-617 of publish.py, entered with `overall_status = True`.
Op order mirrors the source: CustomEntity04 update, optional origin-task
`thdn` update, optional asset update, Task status update, then
`batch_data.extend(publish_batch_data)` — the whole accumulated
`publish_batch_data` list, which is never reset between items. -/
def successTail (w : World) (t : Task) (ed : EntityRec) (isTechfix : Bool)
    (nextStatus : String) (pubAcc : List BatchOp) (report0 : Report) :
    Except String (Report × List BatchOp × List BatchOp) :=
  let tfRes : Except String (List BatchOp × Option String) :=
    if isTechfix then techfixStage w t nextStatus else .ok ([], none)
  match tfRes with
  | .error e => .error e
  | .ok (tfOps, some reason) => .ok ({ report0 with reason := reason }, tfOps, pubAcc)
  | .ok (tfOps, none) =>
    match assetCascadeStage w t ed nextStatus with
    | .inl reason => .ok ({ report0 with reason := reason }, tfOps, pubAcc)
    | .inr cascadeOps =>
      .ok ({ report0 with success := "YES", reason := "Task is Successfully Published" },
        tfOps ++ cascadeOps ++ [statusOp "Task" t.id nextStatus] ++ pubAcc, pubAcc)

/-- One iteration of the `for task in self.selected_tasks_data` loop
(publish.py lines 171-617). Returns the item's report row, the ops it
appended to `batch_data` and the updated `publish_batch_data`; `.error`
models an exception escaping to the run-level handler. -/
def processItem (w : World) (cfg : ActionConfig) (pubAcc : List BatchOp)
    (t : Task) : Except String (Report × List BatchOp × List BatchOp) :=
  let report0 : Report := ⟨t.link.name, t.pipelineStep, "NO", ""⟩
  match entityLookup w t with
  | none =>
    .ok ({ report0 with reason := "Selected Shot/Asset data is not found in SG" },
      [], pubAcc)
  | some ed =>
    let isTechfix := t.taskName.endsWith "_TechFix"
    match taskConfigLookup w t with
    | none =>
      .ok ({ report0 with
          reason := "Valid config is not available in SG, please reach out to SG team!" },
        [], pubAcc)
    | some tc =>
      if t.pipelineStep ∉ cfg.clientQcSteps ∧
          (truthyOpt tc.statusConfig = false ∨ truthyOpt tc.fileConfig = false) then
        .ok ({ report0 with
            reason := "Shotgrid Config is Empty for this Task, Please check with SG Team" },
          [], pubAcc)
      else
        match subscriptAction tc.statusConfig cfg.action with
        | .error e => .error e
        | .ok actionMap0 =>
          let actionMap := effectiveStatusMap actionMap0 isTechfix tc.qcProcess
          if t.pipelineStep ∉ cfg.clientQcSteps ∧ dlookup t.status actionMap = none then
            .ok ({ report0 with
                reason := "Selected Task current status is not valid for this Action in SG" },
              [], pubAcc)
          else
            if (w.roleOk t.id).1 = false then
              .ok ({ report0 with reason := (w.roleOk t.id).2 }, [], pubAcc)
            else
              match dlookup t.status actionMap with
              | none => .error ("KeyError: " ++ t.status)
              | some nextStatus =>
                match fileConfigsFor tc t.pipelineStep nextStatus with
                | .error e => .error e
                | .ok fileConfigs =>
                  let cst := copyLoop w cfg tc t ed fileConfigs pubAcc
                  if cst.ok then
                    successTail w t ed isTechfix nextStatus cst.pubAcc report0
                  else
                    .ok ({ report0 with reason := cst.msg }, [], cst.pubAcc)

/-! ### The run loop and the single batch flush -/

/-- Observable external events of a run. -/
inductive Event where
  | item (id : Nat)
  | batchCall (ops : List BatchOp)
deriving Repr, DecidableEq

/-- Result of the item loop: report rows, accumulated `batch_data`, the event
trace, and the exception text when the run aborted. -/
structure RunRes where
  reports : List Report
  batch : List BatchOp
  trace : List Event
  aborted : Option String
deriving Repr

/-- The item loop shared by both modules: process items in order, appending
one report row and the item's ops per iteration; an exception stops the loop
with everything accumulated so far. -/
def runLoop {σ ι : Type} (step : σ → ι → Except String (Report × List BatchOp × σ))
    (itemId : ι → Nat) : List ι → List Report → List BatchOp → σ → List Event → RunRes
  | [], reports, batch, _, tr => ⟨reports, batch, tr, none⟩
  | i :: rest, reports, batch, s, tr =>
    match step s i with
    | .error e => ⟨reports, batch, tr, some e⟩
    | .ok (row, ops, s2) =>
      runLoop step itemId rest (reports ++ [row]) (batch ++ ops) s2
        (tr ++ [Event.item (itemId i)])

/-- The publish item loop (publish.py lines 167-617). -/
def publishRun (w : World) (cfg : ActionConfig) (tasks : List Task) : RunRes :=
  runLoop (fun pub t => processItem w cfg pub t) Task.id tasks [] [] [] []

/-- The synthetic run-level failure row (publish.py lines 625-632,
review.py lines 440-447). -/
def errorRow (e : String) : Report := ⟨"", "", "NO", e⟩

/-- After the loop: `if batch_data: self.sg_obj.batch(batch_data)` on normal
completion (publish.py lines 619-620, review.py lines 435-437); an aborted run
jumps to the handler and never reaches the flush. -/
def finishRun (res : RunRes) : List Report × List Event :=
  match res.aborted with
  | some e => ([errorRow e], res.trace)
  | none =>
    (res.reports,
      if res.batch.isEmpty then res.trace else res.trace ++ [Event.batchCall res.batch])

/-- `Publish.publish`: report list plus the trace of external events. -/
def publish (w : World) (cfg : ActionConfig) (tasks : List Task) :
    List Report × List Event :=
  finishRun (publishRun w cfg tasks)

/-! ### Review.update_version (review.py lines 212-451) -/

/-- `self.tasks.get(ver_task_id, None)` (review.py line 242). -/
def taskLookupById (w : World) (tid : Nat) : Option Task :=
  w.tasksById.find? fun t => decide (t.id = tid)

/-- `ast.literal_eval(cfg[statusConfig])`, the emptiness check and the
`[action]` subscript (review.py lines 285-297). A null field makes
`literal_eval` raise; a missing action key raises `KeyError`. -/
def reviewStatusConfig (tc : TaskConfigRec) (action : String) :
    Except String (Sum String (List (String × String))) :=
  match tc.statusConfig with
  | none => .error "TypeError: literal_eval expects a string"
  | some m =>
    if m.isEmpty then
      .ok (.inl "Valid status not updated in SG Status Config, please reach out to SG team!")
    else
      match dlookup action m with
      | none => .error ("KeyError: " ++ action)
      | some am => .ok (.inr am)

/-- Lead-equivalent roles (review.py line 321). -/
def leadRoles : List String := ["Lead", "Team Lead", "Admin", "Manager"]

/-- Supervisor-equivalent roles (review.py line 342). -/
def supRoles : List String := ["Supervisor", "Admin", "Team Lead", "Lead", "Manager"]

/-- The `if / elif / else` authorization block (review.py lines 320-367).
Returns `some reason` for a denial, `none` when the item may proceed; `and`
short-circuits, so the team-lead/supervisor id is only read when the role
matches (reading it from a null field raises). -/
def reviewAuth (w : World) (rcfg : ReviewConfig) (t : Task) (verStatus : String) :
    Except String (Option String) :=
  match (if leadRoles.contains w.userRole then
      match t.teamLead with
      | none => Except.error "TypeError: NoneType object is not subscriptable"
      | some lid => Except.ok (decide (w.userId = lid))
    else Except.ok false : Except String Bool) with
  | .error e => .error e
  | .ok leadCond =>
    if leadCond then
      if !rcfg.validLeadStatus.contains t.status then
        .ok (some "Task status is not valid for the Lead review")
      else if !rcfg.validLeadVerStatus.contains verStatus then
        .ok (some "Version status is not valid for the Lead review")
      else .ok none
    else
      match (if supRoles.contains w.userRole then
          match t.supervisor with
          | none => Except.error "TypeError: NoneType object is not subscriptable"
          | some sid => Except.ok (decide (w.userId = sid))
        else Except.ok false : Except String Bool) with
      | .error e => .error e
      | .ok supCond =>
        if supCond then
          if !rcfg.validSupStatus.contains t.status then
            .ok (some "Task status is not valid for the Supervisor review")
          else if !rcfg.validSupVerStatus.contains verStatus then
            .ok (some "Version status is not valid for the Supervisor review")
          else .ok none
        else
          .ok (some ("User is not valid to review the task, " ++
            "Please check the Team Lead or Supervisor field and update accordingly!!"))

/-- One iteration of the `for version_id, version in self.versions.items()`
loop (review.py lines 234-433). Note that the current task status is never
checked against the action map: `data_to_update` uses `.get`, whose `none`
result is queued as-is. -/
def reviewItem (w : World) (rcfg : ReviewConfig) (ver : VersionRec) :
    Except String (Report × List BatchOp) :=
  match taskLookupById w ver.taskId with
  | none => .error "TypeError: NoneType object is not subscriptable"
  | some t =>
    let report0 : Report := ⟨ver.versionName, t.pipelineStep, "NO", ""⟩
    let isTechfix := t.taskName.endsWith "_TechFix"
    match taskConfigLookup w t with
    | none =>
      .ok ({ report0 with
          reason := "Valid config is not available in SG, please reach out to SG team!" }, [])
    | some tc =>
      match reviewStatusConfig tc rcfg.action with
      | .error e => .error e
      | .ok (.inl reason) => .ok ({ report0 with reason := reason }, [])
      | .ok (.inr actionMap) =>
        if (w.roleOk t.id).1 = false then
          .ok ({ report0 with reason := (w.roleOk t.id).2 }, [])
        else
          match reviewAuth w rcfg t ver.status with
          | .error e => .error e
          | .ok (some reason) => .ok ({ report0 with reason := reason }, [])
          | .ok none =>
            let dataToUpdate := dlookup t.status actionMap
            if isTechfix then
              match techfixEntryLookup w t with
              | none =>
                .ok ({ report0 with
                    reason := "Selected Task TechFixData Record is not available in SG" }, [])
              | some entry =>
                .ok ({ report0 with success := "YES" },
                  [BatchOp.update "CustomEntity04" entry.id dataToUpdate,
                   BatchOp.update "Task" t.id dataToUpdate,
                   BatchOp.update "Version" ver.id dataToUpdate])
            else
              .ok ({ report0 with success := "YES" },
                [BatchOp.update "Task" t.id dataToUpdate,
                 BatchOp.update "Version" ver.id dataToUpdate])

/-- Adapter of `reviewItem` to the shared loop (review has no loop state). -/
def reviewStep (w : World) (rcfg : ReviewConfig) :
    Unit → VersionRec → Except String (Report × List BatchOp × Unit) :=
  fun _ v =>
    match reviewItem w rcfg v with
    | .error e => .error e
    | .ok (row, ops) => .ok (row, ops, ())

/-- The review item loop (review.py lines 229-433). -/
def reviewRun (w : World) (rcfg : ReviewConfig) (vers : List VersionRec) : RunRes :=
  runLoop (reviewStep w rcfg) VersionRec.id vers [] [] () []

/-- `Review.update_version`: report list plus the trace of external events. -/
def updateVersion (w : World) (rcfg : ReviewConfig) (vers : List VersionRec) :
    List Report × List Event :=
  finishRun (reviewRun w rcfg vers)

/-! ### Trace helpers -/

/-- Whether an event is the store's batch endpoint being called. -/
def isBatchCall : Event → Bool
  | .batchCall _ => true
  | .item _ => false

/-- The batch-endpoint calls of a trace. -/
def batchCalls (tr : List Event) : List Event := tr.filter isBatchCall

/-- Whether an op is a PublishedFile create belonging to task `tid`. -/
def isCreateForTask (tid : Nat) : BatchOp → Bool
  | .create _ d => d.task == Ref.mk "Task" tid
  | _ => false

/-! ### sg_file_operations.copy (sg_file_operations.py lines 133-249)

The filesystem is modelled at whole-path granularity: a path is present or
not, is a file or a directory, and has a permission mode. `convert_to_unc`
is environment-specific drive-letter rewriting and is modelled as the
identity. Windows `stat.S_IWRITE` is `0o200 = 128`; `os.access(p, W_OK)` is
modelled by the write bit of the mode. -/

/-- Filesystem state. -/
structure FS where
  present : String → Bool
  isFile : String → Bool
  mode : String → Nat

/-- `os.access(p, os.W_OK)`. -/
def accessW (fs : FS) (p : String) : Bool := fs.mode p &&& 128 != 0

/-- `p.chmod(m)`. -/
def FS.setMode (fs : FS) (p : String) (m : Nat) : FS :=
  { fs with mode := fun q => if q = p then m else fs.mode q }

/-- Creation of a file at `p`. -/
def FS.mkFile (fs : FS) (p : String) : FS :=
  { fs with
    present := fun q => if q = p then true else fs.present q
    isFile := fun q => if q = p then true else fs.isFile q }

/-- Creation of a directory at `p`. -/
def FS.mkDir (fs : FS) (p : String) : FS :=
  { fs with
    present := fun q => if q = p then true else fs.present q
    isFile := fun q => if q = p then false else fs.isFile q }

/-- Removal of the entry at `p`. -/
def FS.remove (fs : FS) (p : String) : FS :=
  { fs with
    present := fun q => if q = p then false else fs.present q
    isFile := fun q => if q = p then false else fs.isFile q }

/-- Last `/`-separated component of a path. -/
def baseNameStr (p : String) : String := ((p.splitOn "/").getLast?).getD p

/-- `pathlib.Path(p).suffix` truthiness, approximated as: the last component
contains a dot. -/
def hasSuffix (p : String) : Bool := (baseNameStr p).toList.contains '.'

/-- `shutil.copy2(src, dst)`: copying into an existing directory writes
`dst/basename(src)`; copying over an existing read-only file raises. -/
def copyFileOp (fs : FS) (src dst : String) : Except (String × FS) FS :=
  if fs.present dst && !fs.isFile dst then
    .ok (fs.mkFile (dst ++ "/" ++ baseNameStr src))
  else if fs.present dst && !accessW fs dst then
    .error ("PermissionError: " ++ dst, fs)
  else .ok (fs.mkFile dst)

/-- `shutil.rmtree(p)`: raises when `p` is not a directory. -/
def rmtreeOp (fs : FS) (p : String) : Except (String × FS) FS :=
  if fs.isFile p then .error ("NotADirectoryError: " ++ p, fs)
  else .ok (fs.remove p)

/-- `shutil.copytree(src, dst)`: raises when `dst` already exists. -/
def copytreeOp (fs : FS) (_src dst : String) : Except (String × FS) FS :=
  if fs.present dst then .error ("FileExistsError: " ++ dst, fs)
  else .ok (fs.mkDir dst)

/-- The overwrite branch's writability preparation (sg_file_operations.py
lines 207-209): chmod the destination writable when `os.access` denies W_OK,
remembering nothing usable — the saved variable is `original_mode`, while the
restore at line 220 tests for the name `"originalMode"`, which never exists,
so no restoring `chmod` is ever executed afterwards. -/
def overwritePrep (fs : FS) (destination : String) : FS :=
  if !accessW fs destination then
    fs.setMode destination (fs.mode destination ||| 128)
  else fs

/-- The fresh-destination directory preparation (sg_file_operations.py lines
226-229): a suffix-less destination is itself created as a directory (the
parent `mkdir` of the suffixed case is not observable at path granularity). -/
def freshDestPrep (fs : FS) (destination : String) : FS :=
  if hasSuffix destination then fs else fs.mkDir destination

/-- The `try` body of `copy` (sg_file_operations.py lines 167-242). An error
carries the filesystem as already mutated before the raise. -/
def copyImpl (fs : FS) (source destination : String) (overwrite : Bool) :
    Except (String × FS) (FS × Bool) :=
  if !fs.present source then .error ("Source path does not exist.", fs)
  else if fs.present destination then
    if !overwrite then
      .error ("Destination already exists. Overwrite is set to False.", fs)
    else
      if fs.isFile source then
        match copyFileOp (overwritePrep fs destination) source destination with
        | .error e => .error e
        | .ok fs2 => .ok (fs2, true)
      else
        match rmtreeOp (overwritePrep fs destination) destination with
        | .error e => .error e
        | .ok fs2 =>
          match copytreeOp fs2 source destination with
          | .error e => .error e
          | .ok fs3 => .ok (fs3, true)
  else
    if fs.isFile source then
      match copyFileOp (freshDestPrep fs destination) source destination with
      | .error e => .error e
      | .ok fs2 => .ok (fs2, true)
    else
      if fs.isFile destination then
        .error ("Source is a directory and destination is a file. Please check.", fs)
      else
        match copytreeOp fs source destination with
        | .error e => .error e
        | .ok fs2 => .ok (fs2, true)

/-- `sg_file_operations.copy`: the broad `except` turns any raise into
`(False, str(e))`; success paths return `(True, "")` since no success path
writes to `msg`. -/
def copy (fs : FS) (source destination : String) (overwrite : Bool) :
    Bool × String × FS :=
  match copyImpl fs source destination overwrite with
  | .ok (fs2, st) => (st, "", fs2)
  | .error (e, fsE) => (false, e, fsE)

/-! ### Concrete instances used to evaluate the model -/

/-- A world with no records and trivial oracles; concrete scenarios override
the fields they need. -/
def baseWorld : World :=
  { projectId := 7
    entities := []
    taskConfigs := []
    techfixRecs := []
    tasksById := []
    versions := []
    publishTypes := []
    userRole := ""
    userId := 0
    pathExists := fun _ => true
    isFile := fun _ => false
    baseName := fun p => p
    buildPath := fun tmpl _ tid => tmpl ++ toString tid
    copyResult := fun _ _ => (true, "")
    roleOk := fun _ => (true, "") }

/-- A plain selected task shared by the concrete scenarios. -/
def baseTask : Task :=
  { id := 1, project := 7, link := ⟨"Shot", 11, "SH01"⟩, pipelineStep := "Anim",
    status := "wip", taskName := "Anim", splitType := none, clientVersion := some 1,
    teamLead := some 5, supervisor := some 6 }

/- Scenario for C1: item 1 copies its first slot successfully and fails on the
second; item 2 publishes cleanly. -/

def c1slotA : SlotCfg :=
  { workarea := some "waA", filter := "Maya Files (*.ma)", mandatory := true,
    tags := fun tag => if tag = "server" then some "dstA" else none }

def c1slotB : SlotCfg :=
  { workarea := some "waB", filter := "Mov Files (*.mov)", mandatory := true,
    tags := fun tag => if tag = "server" then some "dstB" else none }

def c1tc : TaskConfigRec :=
  { entityType := "Shot", pathSheetName := "Anim", taskName := "Anim",
    statusConfig := some [("pubact", [("wip", "rev")])],
    fileConfig := some [("rev", [("Maya File", c1slotA), ("Mov File", c1slotB)])],
    qcProcess := some "QC", fields := fun k => k }

def c1w : World :=
  { baseWorld with
    entities := [⟨"Shot", 11, "SH01", none⟩]
    taskConfigs := [c1tc]
    publishTypes := ["Maya File", "Mov File"]
    copyResult := fun s _ => if s = "waB1" then (false, "copy failed for waB1; ") else (true, "") }

def c1cfg : ActionConfig :=
  { action := "pubact", clientQcSteps := [], publishTags := ["server"] }

def c1t2 : Task := { baseTask with id := 2 }

/- Scenario for C2: an originating task 50 on hold for techfix, with `n`
pending sibling techfix records besides the current one. -/

def c2t : Task := { baseTask with taskName := "Anim_TechFix" }

def c2entry : TechfixRec :=
  { id := 100, project := 7, task := some ⟨"Task", 1⟩, fromTask := some ⟨"Task", 50⟩,
    status := "rev" }

def c2from : Task := { baseTask with id := 50, status := "tfhl" }

def c2sibling (i : Nat) : TechfixRec :=
  { id := 200 + i, project := 7, task := some ⟨"Task", 60 + i⟩,
    fromTask := some ⟨"Task", 50⟩, status := "ip" }

def c2w (n : Nat) : World :=
  { baseWorld with
    techfixRecs := c2entry :: (List.range n).map c2sibling
    tasksById := [c2from] }

/- Scenario for C3: a user whose role and id satisfy both the lead and the
supervisor conditions. -/

def c3t : Task := { baseTask with status := "rev", teamLead := some 5, supervisor := some 5 }

def c3w : World := { baseWorld with userRole := "Admin", userId := 5 }

def c3rcfg : ReviewConfig :=
  { action := "appr", validLeadStatus := ["rev"], validLeadVerStatus := ["vrev"],
    validSupStatus := ["supst"], validSupVerStatus := ["supvst"] }

/- Scenario for C5: a client-QC pipeline step whose current status is absent
from the action's status map. -/

def c5t : Task := { baseTask with pipelineStep := "CQC", status := "odd", taskName := "CQC" }

def c5t2 : Task := { c5t with id := 2 }

def c5tc : TaskConfigRec :=
  { entityType := "Shot", pathSheetName := "CQC", taskName := "CQC",
    statusConfig := some [("act", [("wip", "rev")])],
    fileConfig := some [("rev", [])],
    qcProcess := some "QC", fields := fun k => k }

def c5w : World :=
  { baseWorld with
    entities := [⟨"Shot", 11, "SH01", none⟩]
    taskConfigs := [c5tc] }

def c5cfg : ActionConfig := { action := "act", clientQcSteps := ["CQC"], publishTags := [] }

/-- The same action configured without the client-QC exemption. -/
def c5cfgPlain : ActionConfig := { action := "act", clientQcSteps := [], publishTags := [] }

/- Scenario for C6: an empty run. -/

def c6cfg : ActionConfig := { action := "a", clientQcSteps := [], publishTags := [] }

def c6rcfg : ReviewConfig :=
  { action := "a", validLeadStatus := [], validLeadVerStatus := [],
    validSupStatus := [], validSupVerStatus := [] }

/- Scenario for C7: overwriting an existing read-only destination file
(mode 0o444 = 292); the write bit 0o200 = 128 makes 0o644 = 420. -/

def c7fs : FS :=
  { present := fun p => p == "src" || p == "dst"
    isFile := fun p => p == "src" || p == "dst"
    mode := fun p => if p = "dst" then 292 else 438 }

/- Scenario for C8: a matching entity but no matching transition config. -/

def c8w : World :=
  { baseWorld with
    entities := [⟨"Shot", 11, "SH01", none⟩]
    tasksById := [baseTask] }

def c8ver : VersionRec :=
  { id := 9, link := ⟨"Shot", 11, "SH01"⟩, taskId := 1, status := "vrev",
    code := "v1", versionName := "SH01_Anim_v001" }

def c8cfg : ActionConfig := { action := "act", clientQcSteps := [], publishTags := [] }

def c8rcfg : ReviewConfig :=
  { action := "act", validLeadStatus := [], validLeadVerStatus := [],
    validSupStatus := [], validSupVerStatus := [] }

/- Scenario for C9: a missing source path. -/

def c9fs : FS :=
  { present := fun _ => false, isFile := fun _ => false, mode := fun _ => 438 }

/- Scenario for C10: a task whose current status is not a key of the action
map but which passes every review check. -/

def c10t : Task :=
  { baseTask with id := 3, status := "weird", teamLead := some 5 }

def c10tc : TaskConfigRec :=
  { entityType := "Shot", pathSheetName := "Anim", taskName := "Anim",
    statusConfig := some [("appr", [("rev", "apr")])],
    fileConfig := none, qcProcess := none, fields := fun k => k }

def c10w : World :=
  { baseWorld with
    tasksById := [c10t]
    taskConfigs := [c10tc]
    userRole := "Lead"
    userId := 5 }

def c10rcfg : ReviewConfig :=
  { action := "appr", validLeadStatus := ["weird"], validLeadVerStatus := ["vrev"],
    validSupStatus := [], validSupVerStatus := [] }

def c10ver : VersionRec :=
  { id := 9, link := ⟨"Shot", 11, "SH01"⟩, taskId := 3, status := "vrev",
    code := "v1", versionName := "SH01_Anim_v001" }

/-! ### Helper lemmas -/

theorem dlookup_dinsert_self {α : Type} (k : String) (v : α) (m : List (String × α)) :
    dlookup k (dinsert k v m) = some v := by
  induction m with
  | nil => simp [dinsert, dlookup]
  | cons p rest ih =>
    obtain ⟨k2, v2⟩ := p
    by_cases h : k = k2
    · simp [dinsert, dlookup, h]
    · simp [dinsert, dlookup, h, ih]

theorem dlookup_dinsert_ne {α : Type} (k k2 : String) (v : α) (m : List (String × α))
    (h : k2 ≠ k) : dlookup k2 (dinsert k v m) = dlookup k2 m := by
  induction m with
  | nil => simp [dinsert, dlookup, h]
  | cons p rest ih =>
    obtain ⟨k3, v3⟩ := p
    by_cases h2 : k = k3
    · subst h2; simp [dinsert, dlookup, h]
    · by_cases h3 : k2 = k3
      · simp [dinsert, dlookup, h2, h3]
      · simp [dinsert, dlookup, h2, h3, ih]

theorem batchCalls_nil_not_mem (tr : List Event) (ops : List BatchOp)
    (h : batchCalls tr = []) : Event.batchCall ops ∉ tr := by
  intro hm
  have : Event.batchCall ops ∈ batchCalls tr :=
    List.mem_filter.mpr ⟨hm, rfl⟩
  rw [h] at this
  exact absurd this (List.not_mem_nil _)

theorem runLoop_trace_batchCalls {σ ι : Type}
    (step : σ → ι → Except String (Report × List BatchOp × σ)) (itemId : ι → Nat)
    (items : List ι) : ∀ (r : List Report) (b : List BatchOp) (s : σ) (tr : List Event),
    batchCalls (runLoop step itemId items r b s tr).trace = batchCalls tr := by
  induction items with
  | nil => intro r b s tr; simp [runLoop]
  | cons i rest ih =>
    intro r b s tr
    simp only [runLoop]
    cases hstep : step s i with
    | error e => simp
    | ok v =>
      obtain ⟨row, ops, s2⟩ := v
      rw [ih]
      simp [batchCalls, List.filter_append, isBatchCall]

theorem finishRun_flush (res : RunRes) (h : batchCalls res.trace = []) :
    (batchCalls (finishRun res).2).length ≤ 1
    ∧ (∀ ops : List BatchOp, Event.batchCall ops ∈ (finishRun res).2 →
        ops ≠ [] ∧ ∃ pre, (finishRun res).2 = pre ++ [Event.batchCall ops] ∧
          batchCalls pre = [])
    ∧ (res.aborted = none →
        (batchCalls (finishRun res).2 = [] ↔ res.batch = []))
    ∧ (res.aborted ≠ none → batchCalls (finishRun res).2 = []) := by
  cases hA : res.aborted with
  | some e =>
    refine ⟨?_, ?_, ?_, ?_⟩
    · simp [finishRun, hA, h]
    · intro ops hm
      exact absurd hm (batchCalls_nil_not_mem _ _ (by simpa [finishRun, hA] using h))
    · intro h0; exact absurd h0 (by simp)
    · intro _; simpa [finishRun, hA] using h
  | none =>
    cases hB : res.batch.isEmpty with
    | true =>
      have hbN : res.batch = [] := List.isEmpty_iff.mp hB
      refine ⟨?_, ?_, ?_, ?_⟩
      · simp [finishRun, hA, hB, h]
      · intro ops hm
        exact absurd hm (batchCalls_nil_not_mem _ _ (by simpa [finishRun, hA, hB] using h))
      · intro _; simp [finishRun, hA, hB, h, hbN]
      · intro h0; exact absurd rfl h0
    | false =>
      have hbN : res.batch ≠ [] := by
        intro h0; rw [h0] at hB; simp at hB
      have htr : (finishRun res).2 = res.trace ++ [Event.batchCall res.batch] := by
        simp [finishRun, hA, hB]
      have hbc : batchCalls (finishRun res).2 = [Event.batchCall res.batch] := by
        rw [htr]; simp [batchCalls, List.filter_append, isBatchCall]
        simpa [batchCalls] using h
      refine ⟨?_, ?_, ?_, ?_⟩
      · rw [hbc]; simp
      · intro ops hm
        rw [htr] at hm
        rcases List.mem_append.mp hm with hm1 | hm2
        · exact absurd hm1 (batchCalls_nil_not_mem _ _ h)
        · have : Event.batchCall ops = Event.batchCall res.batch := List.mem_singleton.mp hm2
          have hops : ops = res.batch := by injection this
          subst hops
          exact ⟨hbN, res.trace, htr, h⟩
      · intro _; rw [hbc]; simp [hbN]
      · intro h0; exact absurd rfl h0

@[simp] theorem isFile_overwritePrep (fs : FS) (d p : String) :
    (overwritePrep fs d).isFile p = fs.isFile p := by
  unfold overwritePrep FS.setMode; split <;> rfl

@[simp] theorem present_overwritePrep (fs : FS) (d p : String) :
    (overwritePrep fs d).present p = fs.present p := by
  unfold overwritePrep FS.setMode; split <;> rfl

theorem copyFileOp_ok_present (f : FS) (s d : String) (g : FS)
    (h : copyFileOp f s d = .ok g) : g.present d = true := by
  unfold copyFileOp at h
  split at h
  · rename_i hc
    injection h with h2
    subst h2
    rw [Bool.and_eq_true] at hc
    simp only [FS.mkFile]
    split
    · rfl
    · exact hc.1
  · split at h
    · exact absurd h (by simp)
    · injection h with h2
      subst h2
      simp [FS.mkFile]

theorem copytreeOp_ok_present (f : FS) (s d : String) (g : FS)
    (h : copytreeOp f s d = .ok g) : g.present d = true := by
  unfold copytreeOp at h
  split at h
  · exact absurd h (by simp)
  · injection h with h2
    subst h2
    simp [FS.mkDir]

theorem copyImpl_ok_present (fs : FS) (src dst : String) (ow : Bool) (g : FS) (st : Bool)
    (h : copyImpl fs src dst ow = .ok (g, st)) : g.present dst = true := by
  unfold copyImpl at h
  by_cases h1 : (!fs.present src) = true
  · rw [if_pos h1] at h; exact absurd h (by simp)
  · rw [if_neg h1] at h
    by_cases h2 : fs.present dst = true
    · rw [if_pos h2] at h
      by_cases h3 : (!ow) = true
      · rw [if_pos h3] at h; exact absurd h (by simp)
      · rw [if_neg h3] at h
        by_cases h4 : fs.isFile src = true
        · rw [if_pos h4] at h
          cases hcf : copyFileOp (overwritePrep fs dst) src dst with
          | error e => rw [hcf] at h; exact absurd h (by simp)
          | ok fs2 =>
            rw [hcf] at h
            injection h with h5
            injection h5 with hg hst
            exact hg ▸ copyFileOp_ok_present _ _ _ _ hcf
        · rw [if_neg h4] at h
          cases hrm : rmtreeOp (overwritePrep fs dst) dst with
          | error e => rw [hrm] at h; exact absurd h (by simp)
          | ok fs2 =>
            rw [hrm] at h
            dsimp only at h
            cases hct : copytreeOp fs2 src dst with
            | error e => rw [hct] at h; exact absurd h (by simp)
            | ok fs3 =>
              rw [hct] at h
              injection h with h5
              injection h5 with hg hst
              exact hg ▸ copytreeOp_ok_present _ _ _ _ hct
    · rw [if_neg h2] at h
      by_cases h4 : fs.isFile src = true
      · rw [if_pos h4] at h
        cases hcf : copyFileOp (freshDestPrep fs dst) src dst with
        | error e => rw [hcf] at h; exact absurd h (by simp)
        | ok fs2 =>
          rw [hcf] at h
          injection h with h5
          injection h5 with hg hst
          exact hg ▸ copyFileOp_ok_present _ _ _ _ hcf
      · rw [if_neg h4] at h
        by_cases h5 : fs.isFile dst = true
        · rw [if_pos h5] at h; exact absurd h (by simp)
        · rw [if_neg h5] at h
          cases hct : copytreeOp fs src dst with
          | error e => rw [hct] at h; exact absurd h (by simp)
          | ok fs2 =>
            rw [hct] at h
            injection h with h6
            injection h6 with hg hst
            exact hg ▸ copytreeOp_ok_present _ _ _ _ hct

/-! ### Claim theorems -/

/-- Claim C4: for a techfix item, or an item whose config has no QC process,
the override entries mapping "tlapr" and "movapr" to "pub" are merged into
the action's status map before the current-status lookup, unconditionally:
the effective map returns "pub" for both keys whatever the original map held
(the override wins over any pre-existing entry) and agrees with the original
map on every other key. -/
theorem status_override_merge_wins (m : List (String × String)) (isTechfix : Bool)
    (qc : Option String) (h : (isTechfix || !truthyStr qc) = true) (cs : String) :
    dlookup cs (effectiveStatusMap m isTechfix qc) =
      if cs = "tlapr" ∨ cs = "movapr" then some "pub" else dlookup cs m := by
  have hd : effectiveStatusMap m isTechfix qc =
      dinsert "movapr" "pub" (dinsert "tlapr" "pub" m) := by
    simp [effectiveStatusMap, h, dupdate, List.foldl]
  rw [hd]
  by_cases h1 : cs = "movapr"
  · subst h1; simp [dlookup_dinsert_self]
  · rw [dlookup_dinsert_ne "movapr" cs "pub" _ h1]
    by_cases h2 : cs = "tlapr"
    · subst h2; simp [dlookup_dinsert_self]
    · rw [dlookup_dinsert_ne "tlapr" cs "pub" _ h2]
      simp [h1, h2]

/-- Witness for C4: a techfix item whose map already maps "tlapr" to "rev"
still looks up "pub". -/
theorem status_override_merge_wins_check :
    dlookup "tlapr" (effectiveStatusMap [("tlapr", "rev")] true none) = some "pub" := by
  have h := status_override_merge_wins [("tlapr", "rev")] true none (by decide) "tlapr"
  simpa using h

/-- Claim C2: for a successfully copied techfix item whose originating task
has status "tfhl", the originating task's status update to "thdn" is queued
iff the number of other pending techfix records (same originating task, same
project, status outside the terminal set, excluding the current task's
record) is zero. -/
theorem techfix_origin_done_iff_no_pending (w : World) (t : Task) (ns : String)
    (entry : TechfixRec) (ft : Ref) (ftTask : Task)
    (hE : techfixEntryLookup w t = some entry)
    (hF : entry.fromTask = some ft)
    (hT : fromTaskLookup w ft.id = some ftTask)
    (hS : ftTask.status = "tfhl") :
    ∃ ops, techfixStage w t ns = .ok (ops, none) ∧
      (statusOp "Task" ft.id "thdn" ∈ ops ↔ (pendingTechfixes w ft t.id).length = 0) := by
  cases hp : (pendingTechfixes w ft t.id).isEmpty with
  | true =>
    refine ⟨[statusOp "CustomEntity04" entry.id ns, statusOp "Task" ft.id "thdn"], ?_, ?_⟩
    · simp [techfixStage, hE, hF, hT, hS, hp]
    · constructor
      · intro _; exact List.length_eq_zero.mpr (List.isEmpty_iff.mp hp)
      · intro _; simp
  | false =>
    refine ⟨[statusOp "CustomEntity04" entry.id ns], ?_, ?_⟩
    · simp [techfixStage, hE, hF, hT, hS, hp]
    · constructor
      · intro hm
        have h2 := List.mem_singleton.mp hm
        exact absurd h2 (by simp [statusOp])
      · intro hlen
        rw [List.isEmpty_iff.mpr (List.length_eq_zero.mp hlen)] at hp
        exact absurd hp (by simp)

/-- Witness for C2 at N = 0, 1 and 3 pending sibling techfix records. -/
theorem techfix_origin_done_iff_no_pending_check :
    (∃ ops, techfixStage (c2w 0) c2t "pub" = .ok (ops, none) ∧
      (statusOp "Task" (Ref.mk "Task" 50).id "thdn" ∈ ops ↔
        (pendingTechfixes (c2w 0) (Ref.mk "Task" 50) c2t.id).length = 0))
    ∧ (∃ ops, techfixStage (c2w 1) c2t "pub" = .ok (ops, none) ∧
      (statusOp "Task" (Ref.mk "Task" 50).id "thdn" ∈ ops ↔
        (pendingTechfixes (c2w 1) (Ref.mk "Task" 50) c2t.id).length = 0))
    ∧ (∃ ops, techfixStage (c2w 3) c2t "pub" = .ok (ops, none) ∧
      (statusOp "Task" (Ref.mk "Task" 50).id "thdn" ∈ ops ↔
        (pendingTechfixes (c2w 3) (Ref.mk "Task" 50) c2t.id).length = 0)) := by
  refine ⟨?_, ?_, ?_⟩ <;>
    exact techfix_origin_done_iff_no_pending _ c2t "pub" c2entry (Ref.mk "Task" 50)
      c2from (by decide) (by decide) (by decide) (by decide)

/-- Claim C7 (code-bug evidence): overwriting an existing read-only
destination file (mode 0o444 = 292) succeeds — the destination is first made
writable (0o644 = 420) — but the destination's original mode is never
restored afterwards, because the restore guard at sg_file_operations.py line
220 tests the name "originalMode" while the saved local is `original_mode`. -/
theorem copy_overwrite_mode_not_restored :
    (copy c7fs "src" "dst" true).1 = true
    ∧ c7fs.mode "dst" = 292
    ∧ (copy c7fs "src" "dst" true).2.2.mode "dst" = 420 := by decide

/-- Claim C1 (code-bug evidence): two-item run in which item 1 (task id 1)
copies its first slot successfully, queues the matching PublishedFile create
into `publish_batch_data`, then fails its second slot copy, and item 2
publishes successfully. Item 1's report row is unsuccessful, the run
completes, and the flushed batch still contains a PublishedFile create for
failed item 1: `publish_batch_data` is never reset between items, so item 2's
`batch_data.extend(publish_batch_data)` submits item 1's create. -/
theorem publish_flushes_failed_item_create :
    (publishRun c1w c1cfg [baseTask, c1t2]).reports.head?.map Report.success = some "NO"
    ∧ (publishRun c1w c1cfg [baseTask, c1t2]).aborted = none
    ∧ (publishRun c1w c1cfg [baseTask, c1t2]).batch.any (isCreateForTask 1) = true
    ∧ ((publish c1w c1cfg [baseTask, c1t2]).2.any fun e =>
        match e with
        | .batchCall ops => ops.any (isCreateForTask 1)
        | .item _ => false) = true := by
  refine ⟨rfl, rfl, rfl, rfl⟩

/-- Claim C9: `copy` always returns a `(status, msg)` pair instead of
propagating an exception: a missing source yields
`(False, "Source path does not exist.")`, a directory source with an existing
file destination yields `status = False`, and `status = True` implies the
copy completed (the destination is present afterwards). -/
theorem copy_returns_status_pair (fs : FS) (src dst : String) (ow : Bool) :
    (fs.present src = false →
      copy fs src dst ow = (false, "Source path does not exist.", fs))
    ∧ (fs.present src = true → fs.isFile src = false → fs.present dst = true →
        fs.isFile dst = true → (copy fs src dst ow).1 = false)
    ∧ ((copy fs src dst ow).1 = true → (copy fs src dst ow).2.2.present dst = true) := by
  refine ⟨?_, ?_, ?_⟩
  · intro h1
    simp [copy, copyImpl, h1]
  · intro h1 h2 h3 h4
    cases ow with
    | false => simp [copy, copyImpl, h1, h2, h3, h4]
    | true => simp [copy, copyImpl, rmtreeOp, h1, h2, h3, h4]
  · intro h
    rcases hci : copyImpl fs src dst ow with ⟨e, fsE⟩ | ⟨g, st⟩
    · simp only [copy, hci] at h
      exact absurd h (by decide)
    · simp only [copy, hci]
      exact copyImpl_ok_present fs src dst ow g st hci

/-- Witness for C9: a missing source path. -/
theorem copy_returns_status_pair_check :
    copy c9fs "s" "d" false = (false, "Source path does not exist.", c9fs) :=
  (copy_returns_status_pair c9fs "s" "d" false).1 rfl

/-- Claim C6: in every run of `Publish.publish` and `Review.update_version`
the store's batch endpoint is called at most once; any call carries a
non-empty op list and is the final event of the trace, after every per-item
event; when the item loop completes, the call is made iff the accumulated
batch list is non-empty; an aborted run makes no batch call. -/
theorem single_flush_after_loop (w : World) (cfg : ActionConfig) (tasks : List Task)
    (rcfg : ReviewConfig) (vers : List VersionRec) :
    ((batchCalls (publish w cfg tasks).2).length ≤ 1
      ∧ (∀ ops : List BatchOp, Event.batchCall ops ∈ (publish w cfg tasks).2 →
          ops ≠ [] ∧ ∃ pre, (publish w cfg tasks).2 = pre ++ [Event.batchCall ops] ∧
            batchCalls pre = [])
      ∧ ((publishRun w cfg tasks).aborted = none →
          (batchCalls (publish w cfg tasks).2 = [] ↔ (publishRun w cfg tasks).batch = []))
      ∧ ((publishRun w cfg tasks).aborted ≠ none →
          batchCalls (publish w cfg tasks).2 = []))
    ∧ ((batchCalls (updateVersion w rcfg vers).2).length ≤ 1
      ∧ (∀ ops : List BatchOp, Event.batchCall ops ∈ (updateVersion w rcfg vers).2 →
          ops ≠ [] ∧ ∃ pre, (updateVersion w rcfg vers).2 = pre ++ [Event.batchCall ops] ∧
            batchCalls pre = [])
      ∧ ((reviewRun w rcfg vers).aborted = none →
          (batchCalls (updateVersion w rcfg vers).2 = [] ↔ (reviewRun w rcfg vers).batch = []))
      ∧ ((reviewRun w rcfg vers).aborted ≠ none →
          batchCalls (updateVersion w rcfg vers).2 = [])) := by
  constructor
  · have h : batchCalls (publishRun w cfg tasks).trace = [] := by
      simpa [publishRun] using
        runLoop_trace_batchCalls (fun pub t => processItem w cfg pub t) Task.id tasks [] [] [] []
    exact finishRun_flush (publishRun w cfg tasks) h
  · have h : batchCalls (reviewRun w rcfg vers).trace = [] := by
      simpa [reviewRun] using
        runLoop_trace_batchCalls (reviewStep w rcfg) VersionRec.id vers [] [] () []
    exact finishRun_flush (reviewRun w rcfg vers) h

/-- Witness for C6: an empty run makes no batch call. -/
theorem single_flush_after_loop_check :
    batchCalls (publish baseWorld c6cfg []).2 = [] :=
  ((single_flush_after_loop baseWorld c6cfg [] c6rcfg []).1.2.2.1 rfl).mpr rfl

/-- Claim C3: in `Review.update_version`, a user satisfying both the lead
condition (lead-equivalent role and user id equal to the task's team lead)
and the supervisor condition is evaluated under the lead path only — the
outcome is exactly the lead status/version checks; a supervisor-path denial
reason can only arise when the lead condition did not hold; and when neither
path matches, the item is denied with the not-authorized reason. -/
theorem review_lead_path_precedence (w : World) (rcfg : ReviewConfig) (t : Task)
    (vs : String) :
    (leadRoles.contains w.userRole = true → t.teamLead = some w.userId →
      reviewAuth w rcfg t vs = .ok (
        if !rcfg.validLeadStatus.contains t.status then
          some "Task status is not valid for the Lead review"
        else if !rcfg.validLeadVerStatus.contains vs then
          some "Version status is not valid for the Lead review"
        else none))
    ∧ (∀ r : String, reviewAuth w rcfg t vs = .ok (some r) →
        (r = "Task status is not valid for the Supervisor review" ∨
          r = "Version status is not valid for the Supervisor review") →
        ¬(leadRoles.contains w.userRole = true ∧ t.teamLead = some w.userId))
    ∧ ((leadRoles.contains w.userRole = true →
          ∃ lid, t.teamLead = some lid ∧ w.userId ≠ lid) →
        (supRoles.contains w.userRole = true →
          ∃ sid, t.supervisor = some sid ∧ w.userId ≠ sid) →
        reviewAuth w rcfg t vs = .ok (some ("User is not valid to review the task, " ++
          "Please check the Team Lead or Supervisor field and update accordingly!!"))) := by
  have hlead : ∀ (_ : leadRoles.contains w.userRole = true)
      (_ : t.teamLead = some w.userId),
      reviewAuth w rcfg t vs = .ok (
        if !rcfg.validLeadStatus.contains t.status then
          some "Task status is not valid for the Lead review"
        else if !rcfg.validLeadVerStatus.contains vs then
          some "Version status is not valid for the Lead review"
        else none) := by
    intro h1 h2
    have h1m : w.userRole ∈ leadRoles := by simpa using h1
    by_cases c1 : t.status ∈ rcfg.validLeadStatus <;>
      by_cases c2 : vs ∈ rcfg.validLeadVerStatus <;>
        simp [reviewAuth, h1m, h2, c1, c2]
  refine ⟨hlead, ?_, ?_⟩
  · intro r hEq hr
    rintro ⟨h1, h2⟩
    rw [hlead h1 h2] at hEq
    injection hEq with h3
    rcases hr with hr | hr <;> subst hr <;>
      by_cases c1 : t.status ∈ rcfg.validLeadStatus <;>
        by_cases c2 : vs ∈ rcfg.validLeadVerStatus <;>
          simp [c1, c2] at h3
  · intro hL hS2
    cases hc : leadRoles.contains w.userRole with
    | false =>
      have hcm : w.userRole ∉ leadRoles := by simpa using hc
      cases hcs : supRoles.contains w.userRole with
      | false =>
        have hcsm : w.userRole ∉ supRoles := by simpa using hcs
        simp [reviewAuth, hcm, hcsm]
      | true =>
        have hcsm : w.userRole ∈ supRoles := by simpa using hcs
        obtain ⟨sid, hsid, hne⟩ := hS2 hcs
        simp [reviewAuth, hcm, hcsm, hsid, hne]
    | true =>
      have hcm : w.userRole ∈ leadRoles := by simpa using hc
      obtain ⟨lid, hlid, hne⟩ := hL hc
      cases hcs : supRoles.contains w.userRole with
      | false =>
        have hcsm : w.userRole ∉ supRoles := by simpa using hcs
        simp [reviewAuth, hcm, hcsm, hlid, hne]
      | true =>
        have hcsm : w.userRole ∈ supRoles := by simpa using hcs
        obtain ⟨sid, hsid, hne2⟩ := hS2 hcs
        simp [reviewAuth, hcm, hcsm, hlid, hne, hsid, hne2]

/-- Witness for C3: an Admin who is both team lead and supervisor of the task
is evaluated under the lead checks and passes them. -/
theorem review_lead_path_precedence_check :
    reviewAuth c3w c3rcfg c3t "vrev" = .ok none := by
  have h := (review_lead_path_precedence c3w c3rcfg c3t "vrev").1 rfl rfl
  simpa using h

/-- Claim C10: in `Review.update_version` the current task status is never
validated against the action map: when the task passes the role-assignment
and lead/supervisor checks but its current status is not a key of the
action's status map, the item is reported with Success "YES" and the queued
Task and Version updates carry a `None` status value. -/
theorem review_no_status_validation (w : World) (rcfg : ReviewConfig)
    (ver : VersionRec) (t : Task) (tc : TaskConfigRec) (am : List (String × String))
    (hT : taskLookupById w ver.taskId = some t)
    (hC : taskConfigLookup w t = some tc)
    (hS : reviewStatusConfig tc rcfg.action = .ok (.inr am))
    (hR : (w.roleOk t.id).1 = true)
    (hAuth : reviewAuth w rcfg t ver.status = .ok none)
    (hTF : t.taskName.endsWith "_TechFix" = false)
    (hMiss : dlookup t.status am = none) :
    reviewItem w rcfg ver = .ok (⟨ver.versionName, t.pipelineStep, "YES", ""⟩,
      [BatchOp.update "Task" t.id none, BatchOp.update "Version" ver.id none]) := by
  simp [reviewItem, hT, hC, hS, hR, hAuth, hTF, hMiss]

/-- Witness for C10: a concrete passing review item with status "weird"
absent from the map `{"rev": "apr"}`. -/
theorem review_no_status_validation_check :
    reviewItem c10w c10rcfg c10ver = .ok (⟨"SH01_Anim_v001", "Anim", "YES", ""⟩,
      [BatchOp.update "Task" 3 none, BatchOp.update "Version" 9 none]) := by
  exact review_no_status_validation c10w c10rcfg c10ver c10t c10tc [("rev", "apr")]
    rfl rfl rfl rfl rfl rfl rfl

/-- Claim C8: in both modules, when no transition config matches the item's
(entity type, pipeline step, normalized task name) triple, the item's report
row is unsuccessful with the config-missing reason, zero batch operations are
queued for the item, and the loop continues with the next item. -/
theorem config_missing_skips_item (w : World) :
    (∀ (cfg : ActionConfig) (pub : List BatchOp) (t : Task) (ed : EntityRec),
      entityLookup w t = some ed → taskConfigLookup w t = none →
      processItem w cfg pub t = .ok (⟨t.link.name, t.pipelineStep, "NO",
        "Valid config is not available in SG, please reach out to SG team!"⟩, [], pub))
    ∧ (∀ (cfg : ActionConfig) (pub : List BatchOp) (t : Task) (ed : EntityRec)
        (rest : List Task) (r : List Report) (b : List BatchOp) (tr : List Event),
      entityLookup w t = some ed → taskConfigLookup w t = none →
      runLoop (fun pubAcc t2 => processItem w cfg pubAcc t2) Task.id (t :: rest) r b pub tr =
        runLoop (fun pubAcc t2 => processItem w cfg pubAcc t2) Task.id rest
          (r ++ [⟨t.link.name, t.pipelineStep, "NO",
            "Valid config is not available in SG, please reach out to SG team!"⟩]) b pub
          (tr ++ [Event.item t.id]))
    ∧ (∀ (rcfg : ReviewConfig) (ver : VersionRec) (t : Task),
      taskLookupById w ver.taskId = some t → taskConfigLookup w t = none →
      reviewItem w rcfg ver = .ok (⟨ver.versionName, t.pipelineStep, "NO",
        "Valid config is not available in SG, please reach out to SG team!"⟩, []))
    ∧ (∀ (rcfg : ReviewConfig) (ver : VersionRec) (t : Task) (rest : List VersionRec)
        (r : List Report) (b : List BatchOp) (tr : List Event),
      taskLookupById w ver.taskId = some t → taskConfigLookup w t = none →
      runLoop (reviewStep w rcfg) VersionRec.id (ver :: rest) r b () tr =
        runLoop (reviewStep w rcfg) VersionRec.id rest
          (r ++ [⟨ver.versionName, t.pipelineStep, "NO",
            "Valid config is not available in SG, please reach out to SG team!"⟩]) b ()
          (tr ++ [Event.item ver.id])) := by
  have h1 : ∀ (cfg : ActionConfig) (pub : List BatchOp) (t : Task) (ed : EntityRec),
      entityLookup w t = some ed → taskConfigLookup w t = none →
      processItem w cfg pub t = .ok (⟨t.link.name, t.pipelineStep, "NO",
        "Valid config is not available in SG, please reach out to SG team!"⟩, [], pub) := by
    intro cfg pub t ed hE hC
    simp [processItem, hE, hC]
  have h3 : ∀ (rcfg : ReviewConfig) (ver : VersionRec) (t : Task),
      taskLookupById w ver.taskId = some t → taskConfigLookup w t = none →
      reviewItem w rcfg ver = .ok (⟨ver.versionName, t.pipelineStep, "NO",
        "Valid config is not available in SG, please reach out to SG team!"⟩, []) := by
    intro rcfg ver t hT hC
    simp [reviewItem, hT, hC]
  refine ⟨h1, ?_, h3, ?_⟩
  · intro cfg pub t ed rest r b tr hE hC
    simp only [runLoop]
    rw [h1 cfg pub t ed hE hC]
    simp
  · intro rcfg ver t rest r b tr hT hC
    simp only [runLoop, reviewStep]
    rw [h3 rcfg ver t hT hC]
    simp

/-- Witness for C8: a world with a matching entity/task but no transition
config records at all. -/
theorem config_missing_skips_item_check :
    processItem c8w c8cfg [] baseTask = .ok (⟨"SH01", "Anim", "NO",
      "Valid config is not available in SG, please reach out to SG team!"⟩, [], [])
    ∧ reviewItem c8w c8rcfg c8ver = .ok (⟨"SH01_Anim_v001", "Anim", "NO",
      "Valid config is not available in SG, please reach out to SG team!"⟩, []) := by
  exact ⟨(config_missing_skips_item c8w).1 c8cfg [] baseTask ⟨"Shot", 11, "SH01", none⟩
      rfl rfl,
    (config_missing_skips_item c8w).2.2.1 c8rcfg c8ver baseTask rfl rfl⟩

/-- Claim C5 counterexample: a two-item run whose first item has a client-QC
pipeline step and a current status absent from the action map. Processing of
that item does not continue: the unguarded `status_config[current_status]`
lookup raises, the whole run aborts with the synthetic error row, and the
second item is never processed. -/
theorem clientqc_absent_status_aborts_run :
    publish c5w c5cfg [c5t, c5t2] = ([errorRow "KeyError: odd"], []) := by decide

/-- Claim C5 (amended): when the pipeline step is not in `clientQcSteps` and
the current status is absent from the (possibly overridden) action map, the
item fails with the status-invalid reason and is skipped; when the step is in
`clientQcSteps`, the status-invalid check itself is skipped, but an absent
current status then makes the unguarded lookup raise and abort the whole run
instead of letting the item continue. -/
theorem status_invalid_skip_or_abort (w : World) (cfg : ActionConfig)
    (pub : List BatchOp) (t : Task) (tc : TaskConfigRec) (ed : EntityRec)
    (am : List (String × String))
    (hE : entityLookup w t = some ed)
    (hC : taskConfigLookup w t = some tc)
    (hA : subscriptAction tc.statusConfig cfg.action = .ok am)
    (hN : dlookup t.status
        (effectiveStatusMap am (t.taskName.endsWith "_TechFix") tc.qcProcess) = none) :
    (t.pipelineStep ∉ cfg.clientQcSteps →
      truthyOpt tc.statusConfig = true → truthyOpt tc.fileConfig = true →
      processItem w cfg pub t = .ok (⟨t.link.name, t.pipelineStep, "NO",
        "Selected Task current status is not valid for this Action in SG"⟩, [], pub))
    ∧ (t.pipelineStep ∈ cfg.clientQcSteps → (w.roleOk t.id).1 = true →
      processItem w cfg pub t = .error ("KeyError: " ++ t.status)) := by
  constructor
  · intro hs h1 h2
    simp [processItem, hE, hC, hA, hN, hs, h1, h2]
  · intro hs hR
    simp [processItem, hE, hC, hA, hN, hs, hR]

/-- Witness for C5 (amended): the same config-missing status under a plain
step fails the item and skips it; under a client-QC step the run aborts. -/
theorem status_invalid_skip_or_abort_check :
    processItem c5w c5cfgPlain [] c5t = .ok (⟨"SH01", "CQC", "NO",
      "Selected Task current status is not valid for this Action in SG"⟩, [], [])
    ∧ processItem c5w c5cfg [] c5t = .error "KeyError: odd" := by
  constructor
  · exact (status_invalid_skip_or_abort c5w c5cfgPlain [] c5t c5tc
      ⟨"Shot", 11, "SH01", none⟩ [("wip", "rev")] rfl rfl rfl rfl).1
      (by decide) rfl rfl
  · exact (status_invalid_skip_or_abort c5w c5cfg [] c5t c5tc
      ⟨"Shot", 11, "SH01", none⟩ [("wip", "rev")] rfl rfl rfl rfl).2
      (by decide) rfl

end FlowTrack
